import Mathlib

/-!
Verification of the authentication & credential-recovery core of the
user-account microservice (`services/user`). The repository's `main.go`
wires routing, the JWT secret fallback and database bootstrapping; the
Token Codec, Password Hasher, Reset-Token Manager, Auth Gate and
Credential Rotation components are referenced there but their bodies are
not part of the shown sources, so they are modelled from the spec
(sections 4.1-4.5, 6, 7). Randomness (token values, hashing salts) is
passed explicitly as a parameter; time is an explicit `Nat` argument.
-/

/-- An injective numeric encoding of a list of characters, base 2^21
(every `Char.toNat` is below 1114112 < 2^21). Used to model signatures
and idealized one-way digests over strings. -/
def listVal : List Char → Nat
  | [] => 0
  | c :: cs => listVal cs * 2097152 + (c.toNat + 1)

/-- Injective numeric encoding of a string. -/
def strVal (s : String) : Nat := listVal s.data

theorem char_toNat_lt (c : Char) : c.toNat < 1114112 := by
  rcases c.valid with h | ⟨_, h⟩ <;> exact Nat.lt_of_lt_of_le h (by decide)

theorem listVal_injective : Function.Injective listVal := by
  intro l₁ l₂ h
  induction l₁ generalizing l₂ with
  | nil =>
    cases l₂ with
    | nil => rfl
    | cons c cs =>
      exfalso
      simp only [listVal] at h
      omega
  | cons c cs ih =>
    cases l₂ with
    | nil =>
      exfalso
      simp only [listVal] at h
      omega
    | cons d ds =>
      simp only [listVal] at h
      have hc := char_toNat_lt c
      have hd := char_toNat_lt d
      have h1 : c.toNat = d.toNat ∧ listVal cs = listVal ds := by omega
      have hcd : c = d := Char.eq_of_val_eq (by
        apply UInt32.toNat.inj
        exact h1.1)
      rw [hcd, ih h1.2]

theorem strVal_injective : Function.Injective strVal := by
  intro s t h
  cases s with
  | mk ls =>
    cases t with
    | mk lt =>
      have := listVal_injective h
      simp only [String.data] at this
      rw [this]

/-! ## 4.1 Token Codec

Modelled from the spec: the Token Codec (`issue`/`verify`) is invoked via
`middleware.AuthMiddleware` and the `Login` handler, whose bodies are not
in the shown sources. A session token is a self-contained signed
assertion of {identity reference, issued-at, expires-at}; `verify` checks
signature integrity first, then expiry, and is a pure function of the
token, the secret and the current time. -/

/-- A session token: identity reference, issued-at, expires-at, and a
signature over the payload. -/
structure SessionToken where
  identityRef : String
  issuedAt : Nat
  expiresAt : Nat
  sig : Nat
deriving DecidableEq, Repr

/-- Modelled from the spec: signing of the token payload with the
process-wide secret, as an injective function of secret and payload. -/
def sign (secret id : String) (iat exp : Nat) : Nat :=
  Nat.pair (strVal secret) (Nat.pair (strVal id) (Nat.pair iat exp))

/-- Modelled from the spec: `issue(identityRef, ttl)` embeds the identity
reference and expiry (issued-at = now, expires-at = now + ttl) and signs
with the process-wide secret. -/
def issue (secret : String) (now : Nat) (id : String) (ttl : Nat) : SessionToken :=
  { identityRef := id
    issuedAt := now
    expiresAt := now + ttl
    sig := sign secret id now (now + ttl) }

/-- Verification failures of the Token Codec. -/
inductive VerifyError where
  | invalidSignature
  | expired
deriving DecidableEq, Repr

/-- Modelled from the spec: `verify` checks signature integrity first
(fails with `InvalidSignature` on mismatch), then expiry (fails with
`Expired` once current time exceeds issued-at + ttl), then returns the
identity reference. No server-side state. -/
def verify (secret : String) (now : Nat) (tok : SessionToken) :
    Except VerifyError String :=
  if tok.sig = sign secret tok.identityRef tok.issuedAt tok.expiresAt then
    if tok.expiresAt < now then .error .expired
    else .ok tok.identityRef
  else .error .invalidSignature

/-- C1: For every valid identity reference `id` and every `ttl > 0`,
verifying a token immediately after it is issued succeeds and returns the
same identity reference, using the same process-wide signing secret for
both operations. -/
theorem verify_issue_roundtrip (secret id : String) (now ttl : Nat)
    (_httl : 0 < ttl) :
    verify secret now (issue secret now id ttl) = .ok id := by
  simp [verify, issue]

/-- Witness for C1 at secret "s", identity "u1", now = 0, ttl = 10. -/
theorem verify_issue_roundtrip_witness :
    verify "s" 0 (issue "s" 0 "u1" 10) = .ok "u1" :=
  verify_issue_roundtrip "s" "u1" 0 10 (by decide)

/-- C2: once the current time exceeds issued-at + ttl, `verify` fails with
`Expired`, and it never succeeds at any later time regardless of retries
(expiry is permanent, never transient). -/
theorem verify_expired_permanent (secret id : String) (now ttl t : Nat)
    (ht : now + ttl < t) :
    verify secret t (issue secret now id ttl) = .error .expired ∧
      ∀ t', t ≤ t' →
        verify secret t' (issue secret now id ttl) = .error .expired := by
  constructor
  · simp [verify, issue]
    omega
  · intro t' ht'
    simp [verify, issue]
    omega

/-- Witness for C2: the token issued at t=0 with ttl=10 is Expired at
t=15 and at every later time (instantiated at t'=100). -/
theorem verify_expired_permanent_witness :
    verify "s" 15 (issue "s" 0 "u1" 10) = .error .expired ∧
      verify "s" 100 (issue "s" 0 "u1" 10) = .error .expired :=
  ⟨(verify_expired_permanent "s" "u1" 0 10 15 (by decide)).1,
   (verify_expired_permanent "s" "u1" 0 10 15 (by decide)).2 100 (by decide)⟩

/-! ## 4.2 Password Hasher

Modelled from the spec: the Password Hasher (`hash`/`matches`) is invoked
by the registration, login and reset handlers, whose bodies are not in
the shown sources. The one-way function is randomized (salted): the salt
is an explicit parameter here, and the idealized digest body is an
injective function of salt and plaintext, so distinct salts give distinct
digests for the same plaintext while `matchesDigest` stays deterministic. -/

/-- A credential digest: the salt used and the one-way image of the
(salt, plaintext) pair. -/
structure Digest where
  salt : Nat
  body : Nat
deriving DecidableEq, Repr

/-- Modelled from the spec: `hash(plaintext) -> digest`, with the random
salt made explicit, as an idealized collision-free one-way function. -/
def hashPassword (salt : Nat) (p : String) : Digest :=
  { salt := salt, body := Nat.pair salt (strVal p) }

/-- Modelled from the spec: `matches(plaintext, digest) -> bool`
recomputes the one-way image with the digest's stored salt and compares.
It is a pure function of its two arguments. (The Lean name differs from
the spec's `matches` only because that word is reserved syntax.) -/
def matchesDigest (p : String) (d : Digest) : Bool :=
  Nat.pair d.salt (strVal p) == d.body

/-- C8: `matchesDigest(p, hash(p))` is true; for distinct plaintexts,
`matchesDigest(q, hash(p))` is false (the spec's "with overwhelming
probability" holds with certainty in the idealized collision-free model);
and hashing the same plaintext under two different salts — two separate
calls — produces different digests. `matchesDigest` is deterministic because it
is a function of plaintext and digest alone. -/
theorem hasher_spec :
    (∀ salt p, matchesDigest p (hashPassword salt p) = true) ∧
    (∀ salt p q, p ≠ q → matchesDigest q (hashPassword salt p) = false) ∧
    (∀ s₁ s₂ p, s₁ ≠ s₂ → hashPassword s₁ p ≠ hashPassword s₂ p) := by
  refine ⟨fun salt p => by simp [matchesDigest, hashPassword], ?_, ?_⟩
  · intro salt p q hpq
    simp only [matchesDigest, hashPassword, beq_eq_false_iff_ne, ne_eq, Nat.pair_eq_pair]
    intro h
    exact hpq (strVal_injective h.2).symm
  · intro s₁ s₂ p hs h
    exact hs (congrArg Digest.salt h)

/-- Witness for C8 at plaintexts "a", "b" and salts 0, 1. -/
theorem hasher_spec_witness :
    matchesDigest "a" (hashPassword 0 "a") = true ∧
    matchesDigest "b" (hashPassword 0 "a") = false ∧
    hashPassword 0 "a" ≠ hashPassword 1 "a" :=
  ⟨hasher_spec.1 0 "a",
   hasher_spec.2.1 0 "a" "b" (by decide),
   hasher_spec.2.2 0 1 "a" (by decide)⟩

/-! ## 4.4 Auth Gate

Modelled from the spec: `middleware.AuthMiddleware` is applied to the
protected route group in `main.go` but its body is not in the shown
sources. Any verification failure is converted uniformly into a single
rejection outcome, without distinguishing signature-invalid from
expired. -/

/-- Outcome of the Auth Gate for one protected request: either the
resolved identity is attached for downstream use, or a uniform
authorization rejection (a single terminal state with no payload). -/
inductive AuthResult where
  | authenticated (identityRef : String)
  | rejected
deriving DecidableEq, Repr

/-- Modelled from the spec: the Auth Gate delegates to the Token Codec
and maps every verification failure to the same rejection. -/
def authGate (secret : String) (now : Nat) (tok : SessionToken) : AuthResult :=
  match verify secret now tok with
  | .ok id => .authenticated id
  | .error _ => .rejected

/-- C7: two protected requests whose token verification fails — for
whatever reason (`InvalidSignature` or `Expired`) — receive
indistinguishable responses from the Auth Gate. -/
theorem authGate_uniform_rejection (secret : String) (t₁ t₂ : Nat)
    (tok₁ tok₂ : SessionToken) (e₁ e₂ : VerifyError)
    (h₁ : verify secret t₁ tok₁ = .error e₁)
    (h₂ : verify secret t₂ tok₂ = .error e₂) :
    authGate secret t₁ tok₁ = authGate secret t₂ tok₂ := by
  simp [authGate, h₁, h₂]

/-- Witness for C7: a token with a forged signature and a genuinely
issued but expired token produce the same gate outcome. -/
theorem authGate_uniform_rejection_witness :
    authGate "s" 0 ⟨"u1", 0, 10, 0⟩ = authGate "s" 20 (issue "s" 0 "u1" 10) :=
  authGate_uniform_rejection "s" 0 20 ⟨"u1", 0, 10, 0⟩ (issue "s" 0 "u1" 10)
    .invalidSignature .expired (by rfl) (by rfl)

/-! ## main.go: JWT secret selection and route wiring (lines 92-110)

`main` reads `JWT_SECRET` from the environment; Go's `os.Getenv` returns
the empty string when the variable is unset, and `main` substitutes the
hard-coded fallback when the string is empty. The protected route group
(profile and address operations) is wrapped in
`middleware.AuthMiddleware(jwtSecret)`; public routes carry none. -/

/-- From `main.go`: the environment lookup as seen by Go, where an unset
variable (`none`) and an empty value both read back as `""`. -/
def getEnvStr (env : Option String) : String := env.getD ""

/-- From `main.go` lines 93-96: the secret actually handed to
`middleware.AuthMiddleware`. -/
def jwtSecretOf (env : Option String) : String :=
  if getEnvStr env = "" then "your-default-secret-key" else getEnvStr env

/-- From `main.go` lines 100-109: the routes registered on the protected
group. -/
def protectedRoutes : List String :=
  ["GET /profile", "PUT /profile", "PUT /profile/change-password",
   "DELETE /profile", "POST /addresses", "GET /addresses",
   "PUT /addresses/:id", "DELETE /addresses/:id"]

/-- From `main.go` lines 92-110: the authentication check guarding a
route — the Auth Gate constructed with the selected secret for every
route of the protected group, nothing for other routes. -/
def routeAuthCheck (env : Option String) (route : String) :
    Option (Nat → SessionToken → AuthResult) :=
  if route ∈ protectedRoutes then some (authGate (jwtSecretOf env)) else none

/-- C9: if `JWT_SECRET` is unset or empty at startup, the middleware
guarding every protected route is constructed with the hard-coded
fallback secret "your-default-secret-key", so token verification for all
protected endpoints uses that fixed secret. -/
theorem default_secret_on_unset_env (env : Option String)
    (henv : env = none ∨ env = some "") :
    jwtSecretOf env = "your-default-secret-key" ∧
      ∀ route ∈ protectedRoutes,
        routeAuthCheck env route = some (authGate "your-default-secret-key") := by
  have hsec : jwtSecretOf env = "your-default-secret-key" := by
    rcases henv with h | h <;> subst h <;> rfl
  refine ⟨hsec, fun route hr => ?_⟩
  simp [routeAuthCheck, hr, hsec]

/-- Witness for C9 with the variable unset, at the GET /profile route. -/
theorem default_secret_on_unset_env_witness :
    jwtSecretOf none = "your-default-secret-key" ∧
      routeAuthCheck none "GET /profile" =
        some (authGate "your-default-secret-key") :=
  ⟨(default_secret_on_unset_env none (Or.inl rfl)).1,
   (default_secret_on_unset_env none (Or.inl rfl)).2 "GET /profile"
     (by simp [protectedRoutes])⟩

/-! ## main.go: initDB (lines 120-146) -/

/-- The persisted tables as initDB sees them: rows of the User and
Address tables (row contents opaque). -/
structure DBState where
  userRows : List String
  addressRows : List String
deriving DecidableEq, Repr

/-- From `main.go` line 135: `db.Migrator().DropTable(&Address{}, &User{})`
empties both tables when it succeeds; the Bool is the success flag whose
value `initDB` discards. -/
def dropTables (dropOk : Bool) (s : DBState) : DBState × Bool :=
  if dropOk then ({ userRows := [], addressRows := [] }, true) else (s, false)

/-- From `main.go` line 141: `AutoMigrate` (re-)creates the schema and
keeps whatever rows exist. -/
def autoMigrate (s : DBState) : DBState := s

/-- From `main.go` lines 120-146: open the connection (failure returns
`none`), drop the Address and User tables ignoring the result, enable the
uuid extension, auto-migrate, and return the handle. -/
def initDB (connectOk dropOk : Bool) (s : DBState) : Option DBState :=
  if connectOk then some (autoMigrate (dropTables dropOk s).1) else none

/-- C10: on every successful connection `initDB` unconditionally drops
the Address and User tables before re-creating the schema, ignoring the
drop's result (it succeeds either way), so a process start with a
successful drop begins from an empty credential store whatever was
persisted before. -/
theorem initDB_drops_tables (s : DBState) (dropOk : Bool) :
    (initDB true dropOk s).isSome = true ∧
      ∀ s', initDB true true s = some s' →
        s'.userRows = [] ∧ s'.addressRows = [] := by
  refine ⟨by simp [initDB], fun s' h => ?_⟩
  have hval : initDB true true s = some { userRows := [], addressRows := [] } := rfl
  rw [hval] at h
  rw [← Option.some.inj h]
  exact ⟨rfl, rfl⟩

/-- Witness for C10: a store holding one user and one address before the
restart is empty afterwards. -/
theorem initDB_drops_tables_witness :
    (initDB true true ⟨["u1"], ["a1"]⟩).isSome = true ∧
      DBState.userRows ⟨[], []⟩ = [] ∧ DBState.addressRows ⟨[], []⟩ = [] :=
  ⟨(initDB_drops_tables ⟨["u1"], ["a1"]⟩ true).1,
   (initDB_drops_tables ⟨["u1"], ["a1"]⟩ true).2 ⟨[], []⟩ rfl⟩

/-! ## 4.3/4.5 Reset-Token Manager and Credential Rotation

Modelled from the spec: the `RequestPasswordReset` and `ResetPassword`
handlers are registered in `main.go` but their bodies are not in the
shown sources. The reset-token store and credential store are explicit
state; the cryptographically random opaque value and the hashing salt are
explicit parameters; time is an explicit `Nat`. -/

/-- A persisted reset-token record: {random opaque value, identity
reference, issued-at, expires-at, consumed flag}. -/
structure ResetRecord where
  value : String
  identityRef : String
  issuedAt : Nat
  expiresAt : Nat
  consumed : Bool
deriving DecidableEq, Repr

/-- The shared mutable stores: reset-token records and the per-identity
credential hashes. -/
structure Store where
  records : List ResetRecord
  credentials : List (String × Digest)
deriving DecidableEq, Repr

/-- Failures of the Reset-Token Manager and Credential Rotation. -/
inductive RedeemError where
  | tokenNotFound
  | tokenExpired
  | tokenAlreadyUsed
  | identityNotFound
deriving DecidableEq, Repr

/-- Modelled from the spec: the reset-token store's
`findByToken(value) -> record|NotFound`. -/
def findByToken (t : String) (s : Store) : Option ResetRecord :=
  s.records.find? (fun r => r.value == t)

/-- Modelled from the spec: the store's atomic `markConsumed(value)`
transition on the matching record. -/
def markConsumed (t : String) (s : Store) : Store :=
  { s with records :=
      s.records.map (fun r => if r.value == t then { r with consumed := true } else r) }

/-- Modelled from the spec: the credential store's
`updateCredential(ref, digest)` row update. -/
def updateCredential (id : String) (d : Digest) (s : Store) : Store :=
  { s with credentials :=
      s.credentials.map (fun c => if c.1 == id then (c.1, d) else c) }

/-- Modelled from the spec: `request(identityRef)` generates a random
opaque value (passed in as `tokenValue`), sets issued-at = now,
expires-at = now + window, invalidates any prior outstanding token for
the same identity, persists the record, and hands the token value to the
email collaborator (the returned first component). -/
def request (id : String) (now window : Nat) (tokenValue : String) (s : Store) :
    String × Store :=
  (tokenValue,
   { s with records :=
       { value := tokenValue, identityRef := id, issuedAt := now
         expiresAt := now + window, consumed := false } ::
         s.records.filter (fun r => r.identityRef != id) })

/-- Modelled from the spec: `redeem(token, newPlaintext)` looks up the
token (`TokenNotFound` if absent), checks expiry (`TokenExpired` if past
expires-at), checks the consumed flag (`TokenAlreadyUsed` if set), and on
success atomically marks the record consumed, delegates to the Password
Hasher, and returns the identity reference with the new digest for
Credential Rotation. A failing call leaves the store untouched. -/
def redeem (t p : String) (now salt : Nat) (s : Store) :
    Except RedeemError (String × Digest) × Store :=
  match findByToken t s with
  | none => (.error .tokenNotFound, s)
  | some r =>
    if r.expiresAt < now then (.error .tokenExpired, s)
    else if r.consumed then (.error .tokenAlreadyUsed, s)
    else (.ok (r.identityRef, hashPassword salt p), markConsumed t s)

/-- Modelled from the spec: Credential Rotation's
`apply(identityRef, newDigest)`, failing with `IdentityNotFound` when the
identity has no stored credential. -/
def applyRotation (id : String) (d : Digest) (s : Store) :
    Except RedeemError Unit × Store :=
  if s.credentials.any (fun c => c.1 == id) then (.ok (), updateCredential id d s)
  else (.error .identityNotFound, s)

/-- Modelled from the spec: the full reset endpoint flow — redeem the
token, then apply the rotation to the stored credential. -/
def resetPassword (t p : String) (now salt : Nat) (s : Store) :
    Except RedeemError String × Store :=
  match redeem t p now salt s with
  | (.error e, s') => (.error e, s')
  | (.ok (id, d), s') =>
    match applyRotation id d s' with
    | (.error e, s'') => (.error e, s'')
    | (.ok _, s'') => (.ok id, s'')

theorem redeem_error_store {t p : String} {now salt : Nat} {s s₁ : Store}
    {e : RedeemError} (h : redeem t p now salt s = (.error e, s₁)) : s₁ = s := by
  unfold redeem at h
  split at h
  · injection h with h1 h2; exact h2.symm
  · split at h
    · injection h with h1 h2; exact h2.symm
    · split at h
      · injection h with h1 h2; exact h2.symm
      · injection h with h1 h2; exact Except.noConfusion h1

theorem redeem_ok_store {t p : String} {now salt : Nat} {s s₁ : Store}
    {v : String × Digest} (h : redeem t p now salt s = (.ok v, s₁)) :
    s₁ = markConsumed t s := by
  unfold redeem at h
  split at h
  · injection h with h1 h2; exact Except.noConfusion h1
  · split at h
    · injection h with h1 h2; exact Except.noConfusion h1
    · split at h
      · injection h with h1 h2; exact Except.noConfusion h1
      · injection h with h1 h2; exact h2.symm

theorem applyRotation_error_store {id : String} {d : Digest} {s s₁ : Store}
    {e : RedeemError} (h : applyRotation id d s = (.error e, s₁)) : s₁ = s := by
  unfold applyRotation at h
  split at h
  · injection h with h1 h2; exact Except.noConfusion h1
  · injection h with h1 h2; exact h2.symm

/-- C3: `redeem(t, p)` fails with `TokenNotFound` iff no record with
value `t` is stored; when a record is found, it fails with `TokenExpired`
iff the current time is past its expires-at, fails with
`TokenAlreadyUsed` iff it is unexpired but its consumed flag is set, and
succeeds exactly when a stored, unexpired, unconsumed record with value
`t` exists. -/
theorem redeem_error_taxonomy (t p : String) (now salt : Nat) (s : Store) :
    ((redeem t p now salt s).1 = .error .tokenNotFound ↔
        ∀ r ∈ s.records, r.value ≠ t) ∧
    (∀ r, findByToken t s = some r →
        ((redeem t p now salt s).1 = .error .tokenExpired ↔ r.expiresAt < now)) ∧
    (∀ r, findByToken t s = some r →
        ((redeem t p now salt s).1 = .error .tokenAlreadyUsed ↔
          ¬ r.expiresAt < now ∧ r.consumed = true)) ∧
    ((∃ id d, (redeem t p now salt s).1 = .ok (id, d)) ↔
        ∃ r, findByToken t s = some r ∧ ¬ r.expiresAt < now ∧ r.consumed = false) := by
  have hnone : findByToken t s = none ↔ ∀ r ∈ s.records, r.value ≠ t := by
    rw [findByToken, List.find?_eq_none]
    simp
  rcases hfind : findByToken t s with _ | r
  · have hred : (redeem t p now salt s).1 = .error .tokenNotFound := by
      simp [redeem, hfind]
    refine ⟨by simpa [hred] using hnone.mp hfind, ?_, ?_, ?_⟩
    · intro r hr; exact Option.noConfusion hr
    · intro r hr; exact Option.noConfusion hr
    · constructor
      · rintro ⟨id, d, h⟩; rw [hred] at h; exact Except.noConfusion h
      · rintro ⟨r, hr, -⟩; exact Option.noConfusion hr
  · have hmem : r ∈ s.records := List.mem_of_find?_eq_some hfind
    have hval : r.value = t := by simpa using List.find?_some hfind
    have hnotall : ¬ ∀ r' ∈ s.records, r'.value ≠ t := fun hall => hall r hmem hval
    by_cases hexp : r.expiresAt < now
    · have hred : (redeem t p now salt s).1 = .error .tokenExpired := by
        simp [redeem, hfind, hexp]
      refine ⟨by simp [hred, hnotall], ?_, ?_, ?_⟩
      · rintro r' hr'; injection hr' with hr'; subst hr'; simp [hred, hexp]
      · rintro r' hr'; injection hr' with hr'; subst hr'; simp [hred, hexp]
      · constructor
        · rintro ⟨id, d, h⟩; rw [hred] at h; exact Except.noConfusion h
        · rintro ⟨r', hr', hexp', -⟩; injection hr' with hr'; subst hr'
          exact absurd hexp hexp'
    · by_cases hcons : r.consumed
      · have hred : (redeem t p now salt s).1 = .error .tokenAlreadyUsed := by
          simp [redeem, hfind, hexp, hcons]
        refine ⟨by simp [hred, hnotall], ?_, ?_, ?_⟩
        · rintro r' hr'; injection hr' with hr'; subst hr'; simp [hred, hexp]
        · rintro r' hr'; injection hr' with hr'; subst hr'; simp [hred, hexp, hcons]
        · constructor
          · rintro ⟨id, d, h⟩; rw [hred] at h; exact Except.noConfusion h
          · rintro ⟨r', hr', -, hcons'⟩; injection hr' with hr'; subst hr'
            simp [hcons'] at hcons
      · have hred : (redeem t p now salt s).1 =
            .ok (r.identityRef, hashPassword salt p) := by
          simp [redeem, hfind, hexp, hcons]
        refine ⟨by simp [hred, hnotall], ?_, ?_, ?_⟩
        · rintro r' hr'; injection hr' with hr'; subst hr'; simp [hred, hexp]
        · rintro r' hr'; injection hr' with hr'; subst hr'; simp [hred, hcons]
        · exact ⟨fun _ => ⟨r, rfl, hexp, by simpa using hcons⟩,
                 fun _ => ⟨r.identityRef, hashPassword salt p, hred⟩⟩

/-- Witness for C3: a store holding the unconsumed record "T" expiring at
t=10, redeemed at t=20, fails with `TokenExpired`. -/
theorem redeem_error_taxonomy_witness :
    (redeem "T" "p" 20 0
        ⟨[⟨"T", "u1", 0, 10, false⟩], [("u1", hashPassword 0 "old")]⟩).1 =
      .error .tokenExpired :=
  ((redeem_error_taxonomy "T" "p" 20 0
      ⟨[⟨"T", "u1", 0, 10, false⟩], [("u1", hashPassword 0 "old")]⟩).2.1
    ⟨"T", "u1", 0, 10, false⟩ rfl).mpr (by decide)

/-- C6: a reset flow that returns any failure — `TokenNotFound`,
`TokenExpired`, `TokenAlreadyUsed` or `IdentityNotFound` — leaves the
stored credential hash of every identity unchanged: credentials are never
rotated on a failed redemption. -/
theorem resetPassword_failure_preserves_credentials (t p : String)
    (now salt : Nat) (s : Store) (e : RedeemError) (s' : Store)
    (h : resetPassword t p now salt s = (.error e, s')) :
    s'.credentials = s.credentials := by
  unfold resetPassword at h
  split at h
  · next e' s₁ heq =>
      injection h with h1 h2
      rw [← h2, redeem_error_store heq]
  · next id d s₁ heq =>
      split at h
      · next e'' s₂ heq2 =>
          injection h with h1 h2
          rw [← h2, applyRotation_error_store heq2, redeem_ok_store heq]
          rfl
      · next a s₂ heq2 =>
          injection h with h1 h2
          exact Except.noConfusion h1

/-- Witness for C6: redeeming an absent token against a store with one
credential fails and leaves the credential list unchanged. -/
theorem resetPassword_failure_preserves_credentials_witness :
    Store.credentials
        (resetPassword "T" "new" 0 0
          ⟨[], [("u1", hashPassword 0 "old")]⟩).2 =
      [("u1", hashPassword 0 "old")] :=
  resetPassword_failure_preserves_credentials "T" "new" 0 0
    ⟨[], [("u1", hashPassword 0 "old")]⟩ .tokenNotFound
    (resetPassword "T" "new" 0 0 ⟨[], [("u1", hashPassword 0 "old")]⟩).2 rfl

/-- C4: after `request(id)` is issued twice before redemption (with the
two random values distinct, the first fresh for the store), only the
second token can be redeemed: the first fails with `TokenNotFound`
(invalidated on reissue), the second succeeds while unexpired, and at
most one reset-token record for `id` remains outstanding. -/
theorem request_supersedes_prior (id : String) (n₁ n₂ w : Nat)
    (t₁ t₂ p : String) (now salt : Nat) (s : Store)
    (hne : t₁ ≠ t₂)
    (hfresh : ∀ r ∈ s.records, r.value ≠ t₁) :
    (redeem t₁ p now salt
        (request id n₂ w t₂ (request id n₁ w t₁ s).2).2).1 =
      .error .tokenNotFound ∧
    (now ≤ n₂ + w →
      (redeem t₂ p now salt
          (request id n₂ w t₂ (request id n₁ w t₁ s).2).2).1 =
        .ok (id, hashPassword salt p)) ∧
    ((request id n₂ w t₂ (request id n₁ w t₁ s).2).2.records.filter
        (fun r => r.identityRef == id)).length = 1 := by
  have hrecords :
      (request id n₂ w t₂ (request id n₁ w t₁ s).2).2.records =
        { value := t₂, identityRef := id, issuedAt := n₂
          expiresAt := n₂ + w, consumed := false } ::
          s.records.filter (fun r => r.identityRef != id) := by
    simp [request, List.filter_filter]
  refine ⟨?_, ?_, ?_⟩
  · have hnone : findByToken t₁
        (request id n₂ w t₂ (request id n₁ w t₁ s).2).2 = none := by
      rw [findByToken, List.find?_eq_none]
      intro r hr
      rw [hrecords] at hr
      rcases List.mem_cons.mp hr with h | h
      · subst h; simpa using fun h => hne h.symm
      · simpa using hfresh r (List.mem_of_mem_filter h)
    simp [redeem, hnone]
  · intro hnow
    have hfind : findByToken t₂
        (request id n₂ w t₂ (request id n₁ w t₁ s).2).2 =
          some { value := t₂, identityRef := id, issuedAt := n₂
                 expiresAt := n₂ + w, consumed := false } := by
      rw [findByToken, hrecords]
      simp [List.find?]
    simp [redeem, hfind]
    rw [if_neg (by omega)]
  · rw [hrecords]
    simp [List.filter_filter]

/-- Witness for C4: two reset requests for "u1" with values "T1" then
"T2"; redeeming "T1" at t=5 fails with `TokenNotFound`, redeeming "T2"
succeeds, and one outstanding record remains for "u1". -/
theorem request_supersedes_prior_witness :
    (redeem "T1" "new" 5 1
        (request "u1" 0 10 "T2"
          (request "u1" 0 10 "T1"
            ⟨[], [("u1", hashPassword 0 "old")]⟩).2).2).1 =
      .error .tokenNotFound ∧
    (redeem "T2" "new" 5 1
        (request "u1" 0 10 "T2"
          (request "u1" 0 10 "T1"
            ⟨[], [("u1", hashPassword 0 "old")]⟩).2).2).1 =
      .ok ("u1", hashPassword 1 "new") ∧
    ((request "u1" 0 10 "T2"
        (request "u1" 0 10 "T1"
          ⟨[], [("u1", hashPassword 0 "old")]⟩).2).2.records.filter
        (fun r => r.identityRef == "u1")).length = 1 :=
  have h := request_supersedes_prior "u1" 0 0 10 "T1" "T2" "new" 5 1
    ⟨[], [("u1", hashPassword 0 "old")]⟩ (by decide) (by simp)
  ⟨h.1, h.2.1 (by decide), h.2.2⟩

/-! ## 5. Concurrency: single-use redemption

The spec requires the unconsumed→consumed transition to be an atomic
compare-and-set, so any N concurrent `redeem` calls on the same token are
equivalent to some serial order of the same N calls; `redeemSeq` is that
linearization. -/

/-- N serialized `redeem` attempts on the same token, threading the
store. -/
def redeemSeq (n : Nat) (t p : String) (now salt : Nat) (s : Store) :
    List (Except RedeemError (String × Digest)) × Store :=
  match n with
  | 0 => ([], s)
  | n + 1 =>
    let step := redeem t p now salt s
    let rest := redeemSeq n t p now salt step.2
    (step.1 :: rest.1, rest.2)

theorem find?_map_consumed (t : String) (l : List ResetRecord)
    (r : ResetRecord) (h : l.find? (fun r => r.value == t) = some r) :
    (l.map (fun r => if r.value == t then { r with consumed := true } else r)).find?
        (fun r => r.value == t) = some { r with consumed := true } := by
  induction l with
  | nil => exact Option.noConfusion h
  | cons a l ih =>
    by_cases hv : a.value = t
    · have hb : (a.value == t) = true := by simp [hv]
      simp only [List.find?_cons, hb] at h
      injection h with h; subst h
      rw [List.map_cons, if_pos hb, List.find?_cons]
      have hs : (({ a with consumed := true } : ResetRecord).value == t) = true := hb
      rw [hs]
    · have hb : (a.value == t) = false := by simp [hv]
      simp only [List.find?_cons, hb] at h
      rw [List.map_cons, if_neg (by simp [hb]), List.find?_cons, hb]
      exact ih h

theorem findByToken_markConsumed {t : String} {s : Store} {r : ResetRecord}
    (h : findByToken t s = some r) :
    findByToken t (markConsumed t s) = some { r with consumed := true } :=
  find?_map_consumed t s.records r h

theorem redeemSeq_consumed (n : Nat) (t p : String) (now salt : Nat)
    (s : Store) (r : ResetRecord) (hfind : findByToken t s = some r)
    (hexp : ¬ r.expiresAt < now) (hcons : r.consumed = true) :
    redeemSeq n t p now salt s =
      (List.replicate n (.error .tokenAlreadyUsed), s) := by
  induction n with
  | zero => rfl
  | succ n ih =>
    have hred : redeem t p now salt s = (.error .tokenAlreadyUsed, s) := by
      simp [redeem, hfind, hexp, hcons]
    simp [redeemSeq, hred, ih, List.replicate_succ]

/-- C5: of N+1 serialized `redeem` attempts on the same valid (stored,
unexpired, unconsumed) token — the linearization of N+1 concurrent calls
under the atomic unconsumed→consumed compare-and-set — exactly the first
succeeds and every other attempt fails with `TokenAlreadyUsed`. -/
theorem redeem_exactly_once (n : Nat) (t p : String) (now salt : Nat)
    (s : Store) (r : ResetRecord) (hfind : findByToken t s = some r)
    (hexp : ¬ r.expiresAt < now) (hcons : r.consumed = false) :
    (redeemSeq (n + 1) t p now salt s).1 =
      .ok (r.identityRef, hashPassword salt p) ::
        List.replicate n (.error .tokenAlreadyUsed) := by
  have hred : redeem t p now salt s =
      (.ok (r.identityRef, hashPassword salt p), markConsumed t s) := by
    simp [redeem, hfind, hexp, hcons]
  have hfind' : findByToken t (markConsumed t s) =
      some { r with consumed := true } := findByToken_markConsumed hfind
  have hrest := redeemSeq_consumed n t p now salt (markConsumed t s)
    { r with consumed := true } hfind' hexp rfl
  simp [redeemSeq, hred, hrest]

/-- Witness for C5: three serialized redemptions of the valid token "T";
the first succeeds, the other two fail with `TokenAlreadyUsed`. -/
theorem redeem_exactly_once_witness :
    (redeemSeq 3 "T" "new" 5 0
        ⟨[⟨"T", "u1", 0, 10, false⟩], [("u1", hashPassword 0 "old")]⟩).1 =
      .ok ("u1", hashPassword 0 "new") ::
        List.replicate 2 (.error .tokenAlreadyUsed) :=
  redeem_exactly_once 2 "T" "new" 5 0
    ⟨[⟨"T", "u1", 0, 10, false⟩], [("u1", hashPassword 0 "old")]⟩
    ⟨"T", "u1", 0, 10, false⟩ rfl (by decide) rfl
